import Mathlib

/-
Verification of the pthread_create context-propagation shim
(src/crates/otel_posix_pseudo_propegator/src/lib.rs and build.rs).

The shim interposes on pthread_create: if the calling thread has an active
span it boxes the original entry point, its argument and the captured OTEL
Context into a Launch struct, passes the raw box through the real
pthread_create with a trampoline entry point, and the trampoline in the new
thread unboxes it, prints the captured span id, attaches the context and
invokes the original routine.  The shallow embedding below models the heap
of live Launch boxes explicitly, records the arguments actually handed to
the underlying primitive, and records the trampoline's observable actions
as an ordered trace.
-/

namespace PosixPropagator

/-- Span identifier carried by a trace span (models opentelemetry SpanId;
0 stands for the invalid span id reported when no span is attached). -/
abbrev SpanId := Nat

/-- Model of an opentelemetry Context value: an opaque snapshot that may or
may not carry an active span.  A context can be present yet span-free. -/
structure Context where
  spanId : Option SpanId
deriving Repr, DecidableEq

/-- Context.has_active_span from the opentelemetry crate: true exactly when
a span is attached to the context. -/
def Context.hasActiveSpan (c : Context) : Bool := c.spanId.isSome

/-- The default context Context.current returns when nothing is attached. -/
def Context.emptyCtx : Context := ⟨none⟩

/-- launch.ctx.span().span_context().span_id() as printed by the
trampoline: the span id, or the invalid id 0 when no span is attached. -/
def Context.spanIdVal (c : Context) : SpanId := c.spanId.getD 0

/-- Thread-local context state of one thread: the stack of attached
contexts.  Context::attach pushes; dropping the returned guard pops. -/
structure Thread where
  ctxStack : List Context
deriving Repr, DecidableEq

/-- Context::current(): the topmost attached context, or the default. -/
def Thread.currentContext (t : Thread) : Context :=
  t.ctxStack.head?.getD Context.emptyCtx

/-- The Launch struct from the source: the caller's original entry point
(a code address), its opaque argument, and the captured context. -/
structure Launch where
  real_fn : Nat
  real_arg : Nat
  ctx : Context
deriving Repr, DecidableEq

/-- The heap of live Box Launch allocations, keyed by raw address.
next is the allocation counter handing out fresh addresses. -/
structure Heap where
  next : Nat
  boxes : List (Nat × Launch)
deriving Repr, DecidableEq

/-- The empty heap. -/
def Heap.emptyHeap : Heap := ⟨0, []⟩

/-- Box::new followed by Box::into_raw: allocate a fresh box holding l and
hand out its raw address. -/
def Heap.alloc (h : Heap) (l : Launch) : Nat × Heap :=
  (h.next, ⟨h.next + 1, (h.next, l) :: h.boxes⟩)

/-- Remove the first binding for addr from an association list of live
boxes, returning the stored Launch and the remaining list. -/
def removeBox : List (Nat × Launch) → Nat → Option (Launch × List (Nat × Launch))
  | [], _ => none
  | (a, l) :: rest, addr =>
    if a = addr then some (l, rest)
    else
      match removeBox rest addr with
      | none => none
      | some (l', rest') => some (l', (a, l) :: rest')

/-- Box::from_raw: reclaim exclusive ownership of the box at addr,
removing it from the heap; none models an invalid raw pointer. -/
def Heap.take (h : Heap) (addr : Nat) : Option (Launch × Heap) :=
  match removeBox h.boxes addr with
  | none => none
  | some (l, rest) => some (l, ⟨h.next, rest⟩)

/-- Heap well-formedness: every live address is below the allocation
counter and the live addresses are pairwise distinct. -/
def Heap.wf (h : Heap) : Prop :=
  (∀ p ∈ h.boxes, p.1 < h.next) ∧ (h.boxes.map Prod.fst).Nodup

/-- Result of a thread entry point: a normal return value, or a panic that
unwinds out of the wrapped call. -/
inductive Outcome where
  | ok (r : Nat)
  | panicked
deriving Repr, DecidableEq

/-- Observable actions performed by the trampoline on the new thread, in
program order: the println of the captured span id, the context
activation, the single call of the wrapped routine (recording the context
it observes via Context::current during its dynamic extent), and the
guard's deactivation. -/
inductive TAct where
  | printSpan (s : SpanId)
  | attachCtx (c : Context)
  | callFn (f : Nat) (arg : Nat) (observed : Context)
  | detachCtx
deriving Repr, DecidableEq

/-- Everything the trampoline produces: the thread result, the heap after
the box is consumed, the thread-local context state after the guard
dropped, and the ordered action trace. -/
structure TrampOut where
  result : Outcome
  heap : Heap
  thread : Thread
  trace : List TAct
deriving Repr, DecidableEq

/-- Shallow embedding of trampoline from the source.  body gives the
semantics of user entry points: body f cx a is the outcome of running the
routine at code address f on argument a while Context::current observes
cx.  The trampoline reclaims the box (Box::from_raw), prints the captured
span id, attaches the captured context, runs the wrapped routine, and the
guard pops the context again on every exit path before the trampoline
returns; none models from_raw on a dangling pointer. -/
def trampoline (body : Nat → Context → Nat → Outcome)
    (h : Heap) (t : Thread) (v : Nat) : Option TrampOut :=
  match h.take v with
  | none => none
  | some (launch, h') =>
    let t1 : Thread := ⟨launch.ctx :: t.ctxStack⟩
    let observed := t1.currentContext
    let r := body launch.real_fn observed launch.real_arg
    some
      { result := r
        heap := h'
        thread := ⟨t1.ctxStack.tail⟩
        trace := [TAct.printSpan launch.ctx.spanIdVal, TAct.attachCtx launch.ctx,
                  TAct.callFn launch.real_fn launch.real_arg observed, TAct.detachCtx] }

/-- Entry-point value passed to the underlying primitive: either the
shim's trampoline or a caller-supplied routine at some code address. -/
inductive CodePtr where
  | tramp
  | user (f : Nat)
deriving Repr, DecidableEq

/-- The argument tuple actually handed to the underlying pthread_create:
the caller's tid slot pointer, the caller's attr pointer, the entry point
and the entry argument. -/
structure RealCallRec where
  tidPtr : Nat
  attr : Nat
  entry : CodePtr
  arg : Nat
deriving Repr, DecidableEq

/-- Console lines written by the interception entry point itself: the
fast-path line (which prints the captured context) or the slow-path
wrapping line. -/
inductive Event where
  | fastPrint (cx : Context)
  | wrapPrint
deriving Repr, DecidableEq

/-- Everything the interception entry point produces: the return code and
the tid value written by the underlying call (forwarded to the caller
unchanged), the heap afterwards, the console lines in order, and the
record of the one underlying call that actually ran. -/
structure PtcOut where
  ret : Int
  tidVal : Nat
  heap : Heap
  events : List Event
  realCall : RealCallRec
deriving Repr, DecidableEq

/-- Shallow embedding of the exported pthread_create from the source,
parametric in the already-resolved underlying primitive real (which, given
the forwarded argument tuple, returns the error code and the tid value it
writes through the caller's slot).  It captures Context::current once at
entry; if no span is active it prints the fast-path line and calls the
primitive directly on the caller's routine and argument; otherwise it
boxes a Launch, prints the wrapping line, and calls the primitive with the
trampoline and the raw box address.  Note the slow path never reclaims the
box itself: ownership is only ever reclaimed by the trampoline. -/
def pthread_create_impl (real : RealCallRec → Int × Nat)
    (creator : Thread) (h : Heap)
    (tidPtr attr start_routine arg : Nat) : PtcOut :=
  let cx := creator.currentContext
  if !cx.hasActiveSpan then
    let call : RealCallRec := ⟨tidPtr, attr, CodePtr.user start_routine, arg⟩
    let rt := real call
    ⟨rt.1, rt.2, h, [Event.fastPrint cx], call⟩
  else
    let launch : Launch := ⟨start_routine, arg, cx⟩
    let ah := h.alloc launch
    let call : RealCallRec := ⟨tidPtr, attr, CodePtr.tramp, ah.1⟩
    let rt := real call
    ⟨rt.1, rt.2, ah.2, [Event.wrapPrint], call⟩

/-- State of the REAL_CREATE OnceLock: none before the one-time
initialization, some addr once the resolved address is cached. -/
structure OnceCell where
  value : Option Nat
deriving Repr, DecidableEq

/-- Shallow embedding of real_pthread_create from the source.  dl is the
outcome of dlsym(RTLD_NEXT, "pthread_create") (none models a null
result).  A call returns the resolved address, the cell afterwards, and
how many dlsym lookups this call performed; Except.error models the panic
raised when the symbol cannot be located. -/
def real_pthread_create (dl : Option Nat) (c : OnceCell) :
    Except String (Nat × OnceCell × Nat) :=
  match c.value with
  | some v => Except.ok (v, c, 0)
  | none =>
    match dl with
    | none => Except.error "failed to find original pthread_create"
    | some a => Except.ok (a, ⟨some a⟩, 1)

/-- Run k successive calls to real_pthread_create against one cell
(modelling the linearized order OnceLock imposes on racing callers),
collecting every caller's observed value, the final cell, and the total
number of dlsym lookups performed; none if any call panicked. -/
def resolveRun (dl : Option Nat) : Nat → OnceCell → Option (List Nat × OnceCell × Nat)
  | 0, c => some ([], c, 0)
  | k + 1, c =>
    match real_pthread_create dl c with
    | Except.error _ => none
    | Except.ok (v, c', n) =>
      match resolveRun dl k c' with
      | none => none
      | some (vs, c'', m) => some (v :: vs, c'', n + m)

/-- Dynamic-binding strategy from the source: the interception body run
with the dlsym-resolved address dlAddr; prim maps a code address to the
behavior of the primitive living there. -/
def pthread_create_dynamic (prim : Nat → RealCallRec → Int × Nat) (dlAddr : Nat)
    (creator : Thread) (h : Heap) (tidPtr attr start_routine arg : Nat) : PtcOut :=
  pthread_create_impl (prim dlAddr) creator h tidPtr attr start_routine arg

/-- Modelled from the spec: the link-time wrapping strategy (build.rs
emits -Wl,-wrap,pthread_create on Linux, and lib.rs declares the fixed
alias __real_pthread_create) routes callers to the same interception body
while the original primitive sits at the compile-time-fixed alias address
wrapAddr; the interception body itself is unchanged. -/
def pthread_create_wrapped (prim : Nat → RealCallRec → Int × Nat) (wrapAddr : Nat)
    (creator : Thread) (h : Heap) (tidPtr attr start_routine arg : Nat) : PtcOut :=
  pthread_create_impl (prim wrapAddr) creator h tidPtr attr start_routine arg

/-! Helper lemmas about the heap of live Launch boxes. -/

/-- removeBox finds nothing when the address is not bound. -/
theorem removeBox_eq_none_of_not_mem (bs : List (Nat × PosixPropagator.Launch)) (addr : Nat)
    (hni : addr ∉ bs.map Prod.fst) : removeBox bs addr = none := by
  induction bs with
  | nil => rfl
  | cons p rest ih =>
    obtain ⟨a, l⟩ := p
    simp only [List.map_cons, List.mem_cons] at hni
    push_neg at hni
    simp only [removeBox, if_neg (Ne.symm hni.1), ih hni.2]

/-- When the live addresses are pairwise distinct, removing a box leaves a
list in which its address is no longer bound. -/
theorem removeBox_not_mem_rest (bs : List (Nat × PosixPropagator.Launch)) (addr : Nat)
    (l : PosixPropagator.Launch) (rest : List (Nat × PosixPropagator.Launch))
    (hnd : (bs.map Prod.fst).Nodup) (he : removeBox bs addr = some (l, rest)) :
    addr ∉ rest.map Prod.fst := by
  induction bs generalizing rest with
  | nil => simp [removeBox] at he
  | cons p tl ih =>
    obtain ⟨a, l₀⟩ := p
    simp only [List.map_cons, List.nodup_cons] at hnd
    by_cases hae : a = addr
    · subst hae
      simp only [removeBox] at he
      simp only [if_true, Option.some.injEq, Prod.mk.injEq] at he
      rw [← he.2]
      exact hnd.1
    · simp only [removeBox, if_neg hae] at he
      cases hrec : removeBox tl addr with
      | none => rw [hrec] at he; simp at he
      | some pr =>
        obtain ⟨l', rest'⟩ := pr
        rw [hrec] at he
        simp only [Option.some.injEq, Prod.mk.injEq] at he
        rw [← he.2]
        simp only [List.map_cons, List.mem_cons]
        push_neg
        exact ⟨fun hc => hae hc.symm, ih rest' hnd.2 (by rw [hrec, he.1])⟩

/-- Taking a box out of a well-formed heap leaves a heap in which the same
raw address can never be reclaimed again (no double free). -/
theorem Heap.take_take_none (h h' : Heap) (addr : Nat) (l : PosixPropagator.Launch)
    (hwf : h.wf) (he : h.take addr = some (l, h')) : h'.take addr = none := by
  unfold Heap.take at he ⊢
  cases hrb : removeBox h.boxes addr with
  | none => rw [hrb] at he; simp at he
  | some pr =>
    obtain ⟨l₀, rest⟩ := pr
    rw [hrb] at he
    simp only [Option.some.injEq, Prod.mk.injEq] at he
    have hrest : h'.boxes = rest := by rw [← he.2]
    rw [hrest, removeBox_eq_none_of_not_mem rest addr
      (removeBox_not_mem_rest h.boxes addr l₀ rest hwf.2 hrb)]

/-- Taking the box just allocated returns what was stored and restores the
previous list of boxes. -/
theorem Heap.take_alloc (h : Heap) (l : PosixPropagator.Launch) :
    (h.alloc l).2.take (h.alloc l).1 = some (l, ⟨h.next + 1, h.boxes⟩) := by
  simp [Heap.alloc, Heap.take, removeBox]

/-- A call action in a trampoline trace. -/
def TAct.isCall : TAct → Bool
  | TAct.callFn _ _ _ => true
  | _ => false

/-- C3: when the calling thread has no active context, pthread_create
calls the resolved original function directly with the caller's original
entry point and argument, constructs no LaunchPackage and performs no heap
allocation (the heap is returned untouched, allocation counter included),
and forwards the underlying call's return code and tid value. -/
theorem C3_fast_path_direct (real : RealCallRec → Int × Nat) (creator : Thread) (h : Heap)
    (tidPtr attr f arg : Nat)
    (hno : (creator.currentContext).hasActiveSpan = false) :
    (pthread_create_impl real creator h tidPtr attr f arg).heap = h ∧
    (pthread_create_impl real creator h tidPtr attr f arg).realCall =
      ⟨tidPtr, attr, CodePtr.user f, arg⟩ ∧
    (pthread_create_impl real creator h tidPtr attr f arg).ret =
      (real ⟨tidPtr, attr, CodePtr.user f, arg⟩).1 := by
  simp [pthread_create_impl, hno]

/-- Witness for C3 at a caller with no attached context. -/
theorem C3_fast_path_direct_witness :
    (pthread_create_impl (fun _ => (0, 0)) ⟨[]⟩ Heap.emptyHeap 1 2 3 4).heap = Heap.emptyHeap ∧
    (pthread_create_impl (fun _ => (0, 0)) ⟨[]⟩ Heap.emptyHeap 1 2 3 4).realCall =
      ⟨1, 2, CodePtr.user 3, 4⟩ ∧
    (pthread_create_impl (fun _ => (0, 0)) ⟨[]⟩ Heap.emptyHeap 1 2 3 4).ret =
      ((fun (_ : RealCallRec) => ((0 : Int), (0 : Nat))) ⟨1, 2, CodePtr.user 3, 4⟩).1 :=
  C3_fast_path_direct (fun _ => (0, 0)) ⟨[]⟩ Heap.emptyHeap 1 2 3 4 rfl

/-- C5: on both paths the return code and the tid value are exactly those
produced by the one underlying call that actually ran, and that call
received the caller's tid slot and attr pointers unchanged; the layer
introduces no error codes of its own. -/
theorem C5_forward_byte_for_byte (real : RealCallRec → Int × Nat) (creator : Thread)
    (h : Heap) (tidPtr attr f arg : Nat) :
    (pthread_create_impl real creator h tidPtr attr f arg).ret =
      (real (pthread_create_impl real creator h tidPtr attr f arg).realCall).1 ∧
    (pthread_create_impl real creator h tidPtr attr f arg).tidVal =
      (real (pthread_create_impl real creator h tidPtr attr f arg).realCall).2 ∧
    (pthread_create_impl real creator h tidPtr attr f arg).realCall.tidPtr = tidPtr ∧
    (pthread_create_impl real creator h tidPtr attr f arg).realCall.attr = attr := by
  cases hb : (creator.currentContext).hasActiveSpan <;> simp [pthread_create_impl, hb]

/-- C9: the slow (propagating) path - handing the trampoline to the
underlying primitive - is taken exactly when the captured context has an
active span; a context that is merely present but span-free takes the
fast path and allocates no LaunchPackage. -/
theorem C9_slow_iff_active_span (real : RealCallRec → Int × Nat) (creator : Thread)
    (h : Heap) (tidPtr attr f arg : Nat) :
    ((pthread_create_impl real creator h tidPtr attr f arg).realCall.entry = CodePtr.tramp ↔
      (creator.currentContext).hasActiveSpan = true) ∧
    ((creator.currentContext).hasActiveSpan = false →
      (pthread_create_impl real creator h tidPtr attr f arg).heap = h) := by
  cases hb : (creator.currentContext).hasActiveSpan <;> simp [pthread_create_impl, hb]

/-- Witness for C9 at a caller whose context is attached but carries no
span: the fast path runs and the heap is untouched. -/
theorem C9_slow_iff_active_span_witness :
    ¬((pthread_create_impl (fun _ => (0, 0)) ⟨[⟨none⟩]⟩ Heap.emptyHeap 1 2 3 4).realCall.entry
        = CodePtr.tramp) ∧
    (pthread_create_impl (fun _ => (0, 0)) ⟨[⟨none⟩]⟩ Heap.emptyHeap 1 2 3 4).heap =
      Heap.emptyHeap := by
  constructor
  · intro hc
    exact absurd
      ((C9_slow_iff_active_span (fun _ => (0, 0)) ⟨[⟨none⟩]⟩ Heap.emptyHeap 1 2 3 4).1.mp hc)
      (by decide)
  · exact (C9_slow_iff_active_span (fun _ => (0, 0)) ⟨[⟨none⟩]⟩ Heap.emptyHeap 1 2 3 4).2 rfl

/-- C4: at a concrete slow-path call whose underlying creation fails with
EAGAIN (11), the shim forwards 11 unchanged, but the Launch box allocated
for the call is still live when pthread_create returns: the package is
leaked, never released.  Box::into_raw transferred the allocation out and
the failure path has no matching Box::from_raw. -/
theorem C4_slow_path_failure_leaks :
    (pthread_create_impl (fun _ => (11, 0)) ⟨[⟨some 7⟩]⟩ Heap.emptyHeap 1 2 3 4).ret = 11 ∧
    (pthread_create_impl (fun _ => (11, 0)) ⟨[⟨some 7⟩]⟩ Heap.emptyHeap 1 2 3 4).heap.boxes =
      [(0, ⟨3, 4, ⟨some 7⟩⟩)] := by
  constructor <;> rfl

/-- C1: when the caller has an active context, the context the new thread
observes for the whole dynamic extent of the wrapped routine (both the
context recorded by the trace's call action and the one the routine's body
receives) is exactly the creator's context at the moment of the
pthread_create call.  The snapshot is stored in the Launch box before the
underlying call runs, so the trampoline's behavior depends only on the
box contents, never on the creator's thread state afterwards: the theorem
holds for every later state t of any thread. -/
theorem C1_snapshot_propagated (real : RealCallRec → Int × Nat) (creator : Thread)
    (h : Heap) (tidPtr attr f arg : Nat) (body : Nat → Context → Nat → Outcome)
    (t : Thread) (hact : (creator.currentContext).hasActiveSpan = true) :
    ∃ tout,
      trampoline body (pthread_create_impl real creator h tidPtr attr f arg).heap t
          (pthread_create_impl real creator h tidPtr attr f arg).realCall.arg = some tout ∧
      tout.trace = [TAct.printSpan (creator.currentContext).spanIdVal,
                    TAct.attachCtx creator.currentContext,
                    TAct.callFn f arg creator.currentContext, TAct.detachCtx] ∧
      tout.result = body f creator.currentContext arg := by
  simp only [pthread_create_impl, hact, Bool.not_true, Bool.false_eq_true, if_false]
  simp [trampoline, Heap.take, Heap.alloc, removeBox, Thread.currentContext]

/-- Witness for C1: a creator with span 7 attached; the new thread's
wrapped call observes span 7. -/
theorem C1_snapshot_propagated_witness :
    ∃ tout,
      trampoline (fun f cx a => Outcome.ok (f + cx.spanIdVal + a))
          (pthread_create_impl (fun _ => (0, 0)) ⟨[⟨some 7⟩]⟩ Heap.emptyHeap 1 2 3 4).heap ⟨[]⟩
          (pthread_create_impl (fun _ => (0, 0)) ⟨[⟨some 7⟩]⟩ Heap.emptyHeap 1 2 3 4).realCall.arg
        = some tout ∧
      tout.trace = [TAct.printSpan (Thread.currentContext ⟨[⟨some 7⟩]⟩).spanIdVal,
                    TAct.attachCtx (Thread.currentContext ⟨[⟨some 7⟩]⟩),
                    TAct.callFn 3 4 (Thread.currentContext ⟨[⟨some 7⟩]⟩), TAct.detachCtx] ∧
      tout.result = (fun f cx a => Outcome.ok (f + cx.spanIdVal + a)) 3
          (Thread.currentContext ⟨[⟨some 7⟩]⟩) 4 :=
  C1_snapshot_propagated (fun _ => (0, 0)) ⟨[⟨some 7⟩]⟩ Heap.emptyHeap 1 2 3 4
    (fun f cx a => Outcome.ok (f + cx.spanIdVal + a)) ⟨[]⟩ rfl

/-- C2: handed any live LaunchPackage, the trampoline reclaims it from the
raw handle and removes it from the heap (after which, on a well-formed
heap, the same handle can never be reclaimed again: no leak, no double
free), performs exactly one call action, namely the original entry point
on the original argument, returns that call's outcome unmodified, and the
activation guard pops the attached context after the wrapped call and
before the trampoline returns, leaving the thread-local context state as
it found it. -/
theorem C2_trampoline_consumes_once (body : Nat → Context → Nat → Outcome)
    (h h' : Heap) (t : Thread) (v : Nat) (launch : PosixPropagator.Launch)
    (htake : h.take v = some (launch, h')) :
    ∃ tout, trampoline body h t v = some tout ∧
      tout.heap = h' ∧
      (h.wf → tout.heap.take v = none) ∧
      tout.result = body launch.real_fn launch.ctx launch.real_arg ∧
      tout.trace = [TAct.printSpan launch.ctx.spanIdVal, TAct.attachCtx launch.ctx,
                    TAct.callFn launch.real_fn launch.real_arg launch.ctx, TAct.detachCtx] ∧
      (tout.trace.countP (fun a => a.isCall)) = 1 ∧
      tout.thread = t := by
  unfold trampoline
  rw [htake]
  exact ⟨_, rfl, rfl, fun hwf => Heap.take_take_none h h' v launch hwf htake, rfl, rfl,
    by simp [TAct.isCall, List.countP, List.countP.go], rfl⟩

/-- Witness for C2 at a concrete one-box heap. -/
theorem C2_trampoline_consumes_once_witness :
    ∃ tout, trampoline (fun _ _ _ => Outcome.ok 9) ⟨1, [(0, ⟨5, 6, ⟨some 7⟩⟩)]⟩ ⟨[]⟩ 0
        = some tout ∧
      tout.heap = (⟨1, []⟩ : Heap) ∧
      ((⟨1, [(0, ⟨5, 6, ⟨some 7⟩⟩)]⟩ : Heap).wf → tout.heap.take 0 = none) ∧
      tout.result = (fun (_ : Nat) (_ : Context) (_ : Nat) => Outcome.ok 9) 5 ⟨some 7⟩ 6 ∧
      tout.trace = [TAct.printSpan (Context.spanIdVal ⟨some 7⟩), TAct.attachCtx ⟨some 7⟩,
                    TAct.callFn 5 6 ⟨some 7⟩, TAct.detachCtx] ∧
      (tout.trace.countP (fun a => a.isCall)) = 1 ∧
      tout.thread = (⟨[]⟩ : Thread) :=
  C2_trampoline_consumes_once (fun _ _ _ => Outcome.ok 9) ⟨1, [(0, ⟨5, 6, ⟨some 7⟩⟩)]⟩
    ⟨1, []⟩ ⟨[]⟩ 0 ⟨5, 6, ⟨some 7⟩⟩ rfl

/-- C10: every run of the interception entry point writes exactly one
console line (the no-context line on the fast path, the wrapping line on
the slow path), and the trampoline's very first action in the new thread
is printing the captured span id, before the captured context is
attached: interception is never free of console side effects. -/
theorem C10_always_prints (real : RealCallRec → Int × Nat) (creator : Thread)
    (h : Heap) (tidPtr attr f arg : Nat) (body : Nat → Context → Nat → Outcome)
    (hx : Heap) (t : Thread) (v : Nat) (launch : PosixPropagator.Launch) (hx' : Heap)
    (htake : hx.take v = some (launch, hx')) :
    (pthread_create_impl real creator h tidPtr attr f arg).events.length = 1 ∧
    ((creator.currentContext).hasActiveSpan = false →
      (pthread_create_impl real creator h tidPtr attr f arg).events =
        [Event.fastPrint creator.currentContext]) ∧
    ((creator.currentContext).hasActiveSpan = true →
      (pthread_create_impl real creator h tidPtr attr f arg).events = [Event.wrapPrint]) ∧
    ∃ tout, trampoline body hx t v = some tout ∧
      ∃ rest, tout.trace =
        TAct.printSpan launch.ctx.spanIdVal :: TAct.attachCtx launch.ctx :: rest := by
  refine ⟨?_, ?_, ?_, ?_⟩
  · cases hb : (creator.currentContext).hasActiveSpan <;> simp [pthread_create_impl, hb]
  · intro hb; simp [pthread_create_impl, hb]
  · intro hb; simp [pthread_create_impl, hb]
  · unfold trampoline
    rw [htake]
    exact ⟨_, rfl, _, rfl⟩

/-- Witness for C10 at a concrete span-free caller and a concrete box. -/
theorem C10_always_prints_witness :
    (pthread_create_impl (fun _ => (0, 0)) ⟨[]⟩ Heap.emptyHeap 1 2 3 4).events.length = 1 ∧
    ((Thread.currentContext ⟨[]⟩).hasActiveSpan = false →
      (pthread_create_impl (fun _ => (0, 0)) ⟨[]⟩ Heap.emptyHeap 1 2 3 4).events =
        [Event.fastPrint (Thread.currentContext ⟨[]⟩)]) ∧
    ((Thread.currentContext ⟨[]⟩).hasActiveSpan = true →
      (pthread_create_impl (fun _ => (0, 0)) ⟨[]⟩ Heap.emptyHeap 1 2 3 4).events =
        [Event.wrapPrint]) ∧
    (∃ tout, trampoline (fun _ _ _ => Outcome.ok 9) ⟨1, [(0, ⟨5, 6, ⟨some 7⟩⟩)]⟩ ⟨[]⟩ 0
        = some tout ∧
      ∃ rest, tout.trace =
        TAct.printSpan (Context.spanIdVal ⟨some 7⟩) :: TAct.attachCtx ⟨some 7⟩ :: rest) :=
  C10_always_prints (fun _ => (0, 0)) ⟨[]⟩ Heap.emptyHeap 1 2 3 4
    (fun _ _ _ => Outcome.ok 9) ⟨1, [(0, ⟨5, 6, ⟨some 7⟩⟩)]⟩ ⟨[]⟩ 0 ⟨5, 6, ⟨some 7⟩⟩
    ⟨1, []⟩ rfl

/-- Once the cell holds a value, further calls return it without looking
anything up and without mutating the cell. -/
theorem resolveRun_cached (dl : Option Nat) (a : Nat) (k : Nat) :
    resolveRun dl k ⟨some a⟩ = some (List.replicate k a, ⟨some a⟩, 0) := by
  induction k with
  | zero => rfl
  | succ n ih => simp [resolveRun, real_pthread_create, ih, List.replicate]

/-- C6: across any number k of (linearized) calls to real_pthread_create
starting from the uninitialized REAL_CREATE cell, the dlsym lookup runs
exactly once, every caller observes the same resolved address, and the
cached cell is never mutated after its one-time initialization. -/
theorem C6_resolution_once (a : Nat) (k : Nat) (hk : 1 ≤ k) :
    resolveRun (some a) k ⟨none⟩ = some (List.replicate k a, ⟨some a⟩, 1) := by
  cases k with
  | zero => exact absurd hk (by decide)
  | succ n => simp [resolveRun, real_pthread_create, resolveRun_cached, List.replicate]

/-- Witness for C6 with three racing callers and address 42. -/
theorem C6_resolution_once_witness :
    resolveRun (some 42) 3 ⟨none⟩ = some (List.replicate 3 42, ⟨some 42⟩, 1) :=
  C6_resolution_once 42 3 (by decide)

/-- C7: when dlsym cannot locate the original pthread_create (a null
result) and the cell is still uninitialized, the resolver panics with a
loud message instead of returning a degraded value or a silent
pass-through. -/
theorem C7_missing_symbol_fatal (c : OnceCell) (hc : c.value = none) :
    real_pthread_create none c =
      Except.error "failed to find original pthread_create" := by
  obtain ⟨cv⟩ := c
  cases cv with
  | none => rfl
  | some v => exact Option.noConfusion hc

/-- Witness for C7 at the uninitialized cell. -/
theorem C7_missing_symbol_fatal_witness :
    real_pthread_create none ⟨none⟩ =
      Except.error "failed to find original pthread_create" :=
  C7_missing_symbol_fatal ⟨none⟩ rfl

/-- C8: whenever the dynamically resolved address and the link-time wrap
alias denote the same underlying primitive, the two binding strategies are
externally indistinguishable: on every input they produce identical
outputs - same return code, same tid value, same heap, same console
lines, and the same recorded underlying call (hence the same fast/slow
path decision). -/
theorem C8_strategies_indistinguishable (prim : Nat → RealCallRec → Int × Nat)
    (dlAddr wrapAddr : Nat) (hsame : prim dlAddr = prim wrapAddr)
    (creator : Thread) (h : Heap) (tidPtr attr f arg : Nat) :
    pthread_create_dynamic prim dlAddr creator h tidPtr attr f arg =
      pthread_create_wrapped prim wrapAddr creator h tidPtr attr f arg := by
  unfold pthread_create_dynamic pthread_create_wrapped
  rw [hsame]

/-- Witness for C8 at distinct addresses hosting the same primitive. -/
theorem C8_strategies_indistinguishable_witness :
    pthread_create_dynamic (fun _ _ => ((0 : Int), (0 : Nat))) 1 ⟨[⟨some 7⟩]⟩
        Heap.emptyHeap 1 2 3 4 =
      pthread_create_wrapped (fun _ _ => ((0 : Int), (0 : Nat))) 2 ⟨[⟨some 7⟩]⟩
        Heap.emptyHeap 1 2 3 4 :=
  C8_strategies_indistinguishable (fun _ _ => ((0 : Int), (0 : Nat))) 1 2 rfl
    ⟨[⟨some 7⟩]⟩ Heap.emptyHeap 1 2 3 4

end PosixPropagator
